import Mathlib

/-!
Verification of the per-worker dataflow execution core and the GraphScope
store adapter (`worker.rs`, `read_graph.rs`, `utils.rs`), via a shallow
embedding into Lean.  Pure functions of the source become Lean functions;
the opaque collaborators (Dataflow, Schedule, the store) are modelled as
oracles/parameters recording the results of their calls.
-/

/-! ## Worker lifecycle (worker.rs) -/

/-- Task states exposed to the cooperative scheduler (`pegasus_executor::TaskState`). -/
inductive TaskState
  | Ready
  | NotReady
  | Finished
deriving DecidableEq, Repr

/-- Execution-time error (`JobExecError`); the payload is abstracted to a message. -/
structure JobExecError where
  msg : String
deriving DecidableEq, Repr

/-- Oracle recording the results the opaque `Dataflow`/`Schedule` collaborators
return during one `WorkerTask::execute` invocation. -/
structure DataflowSched where
  step_result : Except JobExecError Unit
  check_finish : Bool
  close_result : Except JobExecError Unit
  is_idle_result : Except JobExecError Bool

/-- The two-variant worker task state machine (`enum WorkerTask`). -/
inductive WorkerTask
  | Empty
  | Dataflow (o : DataflowSched)

/-- Labels of the calls `WorkerTask::execute` makes on its collaborators. -/
inductive SchedCall
  | step
  | close
  | is_idle
deriving DecidableEq, Repr

/-- Shallow embedding of `WorkerTask::execute` (worker.rs lines 167-182), returning
both the result and the trace of collaborator calls in order. -/
def WorkerTask.execute : WorkerTask → Except JobExecError TaskState × List SchedCall
  | .Empty => (.ok .Finished, [])
  | .Dataflow o =>
    match o.step_result with
    | .error e => (.error e, [.step])
    | .ok _ =>
      if o.check_finish then
        match o.close_result with
        | .error e => (.error e, [.step, .close])
        | .ok _ => (.ok .Finished, [.step, .close])
      else
        match o.is_idle_result with
        | .error e => (.error e, [.step, .is_idle])
        | .ok true => (.ok .NotReady, [.step, .is_idle])
        | .ok false => (.ok .Ready, [.step, .is_idle])

/-- Range of `usize` on the 64-bit targets the engine runs on; `fetch_sub` wraps
modulo this value. -/
def USIZE_MOD : Nat := 2 ^ 64

/-- Observable outcome of one `Worker::execute` step: the state returned to the
scheduler, the new value of the shared peer guard, and the `is_finished` flag. -/
structure ExecOutcome where
  state : TaskState
  guard : Nat
  is_finished : Bool
deriving DecidableEq, Repr

/-- Shallow embedding of `<Worker as Task>::execute` (worker.rs lines 241-292).
`cancelled` is the result of `check_cancel`, `fin0` the current `is_finished`
flag, `taskRes` the result of `self.task.execute()`, and `guard` the current
value of the shared peer guard.  Tracing/span effects are omitted. -/
def worker_execute (cancelled : Bool) (fin0 : Bool) (taskRes : Except JobExecError TaskState)
    (guard : Nat) : ExecOutcome :=
  if cancelled then ⟨.Finished, guard, fin0⟩
  else
    match taskRes with
    | .ok s =>
      if s = .Finished then
        let prior := guard
        let guard' := (guard + (USIZE_MOD - 1)) % USIZE_MOD
        if prior = 1 then ⟨.Finished, guard', true⟩ else ⟨.NotReady, guard', true⟩
      else ⟨s, guard, fin0⟩
    | .error _ => ⟨.Finished, guard, fin0⟩

/-- Sequence of states returned by `n` successive terminal `execute` calls
(each worker's task having returned `Finished`), threading the shared guard. -/
def run_terminal : Nat → Nat → List TaskState
  | 0, _ => []
  | n + 1, g =>
    let r := worker_execute false false (.ok .Finished) g
    r.state :: run_terminal n r.guard

/-! ## Partition assignment (read_graph.rs lines 750-766) -/

/-- Shallow embedding of `assign_worker_partitions`: the loop keeps, in input
order, every partition id congruent to the worker index modulo the local
worker count. -/
def assign_worker_partitions (query_partitions : List Nat) (workers_num worker_idx : Nat) :
    List Nat :=
  match query_partitions with
  | [] => []
  | pid :: rest =>
    if pid % workers_num = worker_idx % workers_num then
      pid :: assign_worker_partitions rest workers_num worker_idx
    else
      assign_worker_partitions rest workers_num worker_idx

/-! ## Store adapter data model (read_graph.rs) -/

/-- Opaque 32-bit float payload, carried through unchanged (no arithmetic). -/
structure F32 where
  bits : Nat
deriving DecidableEq, Repr

/-- Opaque 64-bit float payload, carried through unchanged (no arithmetic). -/
structure F64 where
  bits : Nat
deriving DecidableEq, Repr

/-- Runtime primitive values (`dyn_type::Primitives`).  Signed payloads are
integers, unsigned payloads are naturals; widths are enforced by the casts. -/
inductive Primitives
  | Byte (b : ℤ)
  | Integer (i : ℤ)
  | UInteger (u : Nat)
  | Long (l : ℤ)
  | ULong (u : Nat)
  | ULLong (u : Nat)
  | Float (f : F32)
  | Double (d : F64)
deriving DecidableEq, Repr

/-- Runtime values (`dyn_type::Object`); `Other` stands for the remaining
variants the encoder sends to `Property::Unknown`. -/
inductive Object
  | Primitive (p : Primitives)
  | String (s : String)
  | Vector (v : List Object)
  | Blob (b : List Nat)
  | None
  | Other

/-- Store property values (`global_query::store_api::prelude::Property`). -/
inductive Property
  | Char (c : Nat)
  | Int (i : ℤ)
  | Long (l : ℤ)
  | Float (f : F32)
  | Double (d : F64)
  | String (s : String)
  | Bytes (b : List Nat)
  | ListInt (l : List ℤ)
  | ListLong (l : List ℤ)
  | ListFloat (l : List F32)
  | ListDouble (l : List F64)
  | ListString (l : List String)
  | ListBytes (l : List (List Nat))
  | Null
  | Unknown
deriving DecidableEq, Repr

/-- Rust `b as u8` on an `i8` value: two's-complement reinterpretation. -/
def i8_as_u8 (b : ℤ) : Nat := (b.emod 256).toNat

/-- Rust `i as i32` on a `u32` value: two's-complement wrapping cast. -/
def u32_as_i32 (u : Nat) : ℤ :=
  if u % 2 ^ 32 < 2 ^ 31 then (u % 2 ^ 32 : ℤ) else (u % 2 ^ 32 : ℤ) - 2 ^ 32

/-- Rust `i as i64` on a `u64` value: two's-complement wrapping cast. -/
def u64_as_i64 (u : Nat) : ℤ :=
  if u % 2 ^ 64 < 2 ^ 63 then (u % 2 ^ 64 : ℤ) else (u % 2 ^ 64 : ℤ) - 2 ^ 64

/-- Rust `i as i64` on a `u128` value: truncate to 64 bits, then reinterpret. -/
def u128_as_i64 (u : Nat) : ℤ := u64_as_i64 (u % 2 ^ 64)

/-- Modelled from the spec: `dyn_type::Object::as_i32` (checked numeric
conversion; dyn_type is not part of src/). -/
def obj_as_i32 : Object → Option ℤ
  | .Primitive (.Byte b) => some b
  | .Primitive (.Integer i) => some i
  | .Primitive (.UInteger u) => if (u : ℤ) < 2 ^ 31 then some (u : ℤ) else none
  | .Primitive (.Long l) => if -(2 ^ 31) ≤ l ∧ l < 2 ^ 31 then some l else none
  | .Primitive (.ULong u) => if (u : ℤ) < 2 ^ 31 then some (u : ℤ) else none
  | .Primitive (.ULLong u) => if (u : ℤ) < 2 ^ 31 then some (u : ℤ) else none
  | _ => none

/-- Modelled from the spec: `dyn_type::Object::as_i64` (checked numeric
conversion; dyn_type is not part of src/). -/
def obj_as_i64 : Object → Option ℤ
  | .Primitive (.Byte b) => some b
  | .Primitive (.Integer i) => some i
  | .Primitive (.UInteger u) => some (u : ℤ)
  | .Primitive (.Long l) => some l
  | .Primitive (.ULong u) => if (u : ℤ) < 2 ^ 63 then some (u : ℤ) else none
  | .Primitive (.ULLong u) => if (u : ℤ) < 2 ^ 63 then some (u : ℤ) else none
  | _ => none

/-- Modelled from the spec: `dyn_type::Object::as_u128` (checked numeric
conversion; dyn_type is not part of src/). -/
def obj_as_u128 : Object → Option Nat
  | .Primitive (.Byte b) => if 0 ≤ b then some b.toNat else none
  | .Primitive (.Integer i) => if 0 ≤ i then some i.toNat else none
  | .Primitive (.UInteger u) => some u
  | .Primitive (.Long l) => if 0 ≤ l then some l.toNat else none
  | .Primitive (.ULong u) => some u
  | .Primitive (.ULLong u) => some u
  | _ => none

/-- Modelled from the spec: `dyn_type::Object::as_f32` (dyn_type is not part of src/). -/
def obj_as_f32 : Object → Option F32
  | .Primitive (.Float f) => some f
  | _ => none

/-- Modelled from the spec: `dyn_type::Object::as_f64` (dyn_type is not part of src/). -/
def obj_as_f64 : Object → Option F64
  | .Primitive (.Double d) => some d
  | _ => none

/-- Modelled from the spec: `dyn_type::Object::as_str` (dyn_type is not part of src/). -/
def obj_as_str : Object → Option String
  | .String s => some s
  | _ => none

/-- Modelled from the spec: `dyn_type::Object::as_bytes` (dyn_type is not part of src/). -/
def obj_as_bytes : Object → Option (List Nat)
  | .Blob b => some b
  | _ => none

/-- Shallow embedding of `encode_store_prop_val` (read_graph.rs lines 677-745).
The `unwrap` calls inside the vector branch (which panic on mixed-family
vectors) are modelled with a default value; no claim evaluates those paths. -/
def encode_store_prop_val : Object → Property
  | .Primitive p =>
    match p with
    | .Byte b => .Char (i8_as_u8 b)
    | .Integer i => .Int i
    | .UInteger i => .Int (u32_as_i32 i)
    | .Long i => .Long i
    | .ULong i => .Long (u64_as_i64 i)
    | .ULLong i => .Long (u128_as_i64 i)
    | .Float f => .Float f
    | .Double f => .Double f
  | .String s => .String s
  | .Vector vec =>
    match vec.head? with
    | some probe =>
      match probe with
      | .Primitive p =>
        match p with
        | .Byte _ | .Integer _ | .UInteger _ =>
          .ListInt (vec.map (fun i => (obj_as_i32 i).getD 0))
        | .Long _ | .ULong _ =>
          .ListLong (vec.map (fun i => (obj_as_i64 i).getD 0))
        | .ULLong _ =>
          .ListLong (vec.map (fun i => u128_as_i64 ((obj_as_u128 i).getD 0)))
        | .Float _ =>
          .ListFloat (vec.map (fun i => (obj_as_f32 i).getD ⟨0⟩))
        | .Double _ =>
          .ListDouble (vec.map (fun i => (obj_as_f64 i).getD ⟨0⟩))
      | .String _ => .ListString (vec.map (fun i => (obj_as_str i).getD ""))
      | .Blob _ => .ListBytes (vec.map (fun i => (obj_as_bytes i).getD []))
      | .None => .Null
      | _ => .Unknown
    | none => .Null
  | .Blob b => .Bytes b
  | .None => .Null
  | .Other => .Unknown

/-- Key of a property or table: a registered id or a raw name (`ir_common::NameOrId`). -/
inductive NameOrId
  | Str (s : String)
  | Id (i : ℤ)
deriving DecidableEq, Repr

/-- Errors of the graph proxy layer (`GraphProxyError`), restricted to the
variants this adapter produces. -/
inductive GraphProxyError
  | QueryStoreError (msg : String)
  | FilterPushDownError (msg : String)
deriving DecidableEq, Repr

/-- Rust `i as u32` on an `i32` (`KeyId`) value: two's-complement reinterpretation. -/
def i32_as_u32 (i : ℤ) : Nat := (i.emod (2 ^ 32)).toNat

/-- Shallow embedding of `encode_storage_prop_keys` (read_graph.rs lines 579-594):
`None` maps to `None`, a name list maps to the list of ids, failing on any
string-named property. -/
def encode_storage_prop_keys (prop_names : Option (List NameOrId)) :
    Except GraphProxyError (Option (List Nat)) :=
  match prop_names with
  | some names =>
    (names.mapM (fun prop_key =>
      match prop_key with
      | NameOrId.Str _ => Except.error (GraphProxyError.FilterPushDownError
          "encode storage prop key error, should provide prop_id")
      | NameOrId.Id prop_id => Except.ok (i32_as_u32 prop_id))).map (fun ids => some ids)
  | none => Except.ok none

/-- Store vertex as far as the adapter observes it: id, label and the partition
it lives in (the store itself is external to src/). -/
structure StoreV where
  vid : Nat
  label : Nat
  partition : Nat
deriving DecidableEq, Repr

/-- A storage-level `Condition`, modelled by its evaluation on store vertices. -/
abbrev Cond := StoreV → Bool

/-- Model of `PEvaluator` as the adapter observes it: its in-process evaluation
(`filter_limit!` semantics), the result of `TryInto<Option<Condition>>`
(modelled from the spec: "the row filter converts cleanly to a store
`Condition`" or fails), and the result of `extract_prop_ids`.  The evaluator
itself is external to src/. -/
structure PEvaluator where
  eval : StoreV → Bool
  to_condition : Except Unit Cond
  extract_prop_ids : Option (List Nat)

/-- Shallow embedding of `encode_storage_row_filter_condition` (read_graph.rs
lines 600-618): returns the pushed-down condition and the flag "row filter
exists but was not pushed down". -/
def encode_storage_row_filter_condition (row_filter : Option PEvaluator)
    (row_filter_pushdown : Bool) : Option Cond × Bool :=
  if row_filter_pushdown then
    match row_filter with
    | some f =>
      match f.to_condition with
      | .ok cond => (some cond, false)
      | .error _ => (none, row_filter.isSome)
    | none => (none, false)
  else
    (none, row_filter.isSome)

/-- Modelled from the spec: `translation::zip_option_vecs` (not part of src/)
merges the two optional prop-id lists, "the union of (filter-referenced props,
explicitly-requested props)". -/
def zip_option_vecs (a b : Option (List Nat)) : Option (List Nat) :=
  match a, b with
  | some x, some y => some (x ++ y)
  | some x, none => some x
  | none, some y => some y
  | none, none => none

/-- Shallow embedding of `extract_needed_columns` (read_graph.rs lines 622-645):
`Some([])` (all properties) is returned unchanged; otherwise the
filter-referenced props and the output columns are merged and de-duplicated
(the source de-duplicates through a `HashSet`, so only the resulting set is
specified). -/
def extract_needed_columns (filter : Option PEvaluator) (out_columns : Option (List Nat)) :
    Except GraphProxyError (Option (List Nat)) :=
  if out_columns = some [] then Except.ok (some [])
  else
    let filter_needed := match filter with
      | some f => f.extract_prop_ids
      | none => none
    Except.ok ((zip_option_vecs filter_needed out_columns).map List.dedup)

/-- Shallow embedding of `get_all_storage_props` (read_graph.rs lines 649-651):
`Some(vec![])` means all properties. -/
def get_all_storage_props : Option (List Nat) := some []

/-- The `prop_ids` decision of `scan_vertex` (read_graph.rs lines 106-122):
which property ids are requested from the storage layer. -/
def scan_vertex_prop_ids (column_filter_pushdown : Bool) (row_filter : Option PEvaluator)
    (row_filter_pushdown : Bool) (columns : Option (List NameOrId)) :
    Except GraphProxyError (Option (List Nat)) :=
  let row_filter_exists_but_not_pushdown :=
    (encode_storage_row_filter_condition row_filter row_filter_pushdown).2
  if column_filter_pushdown then
    match encode_storage_prop_keys columns with
    | .error e => .error e
    | .ok cache_prop_ids =>
      if row_filter_exists_but_not_pushdown then
        extract_needed_columns row_filter cache_prop_ids
      else
        .ok cache_prop_ids
  else
    .ok get_all_storage_props

/-- Modelled from the spec: the store's `get_all_vertices` (the store is
external to src/) returns the vertices of the requested partitions whose label
matches (empty label list = any) and which satisfy the pushed-down condition. -/
def store_get_all_vertices (table : List StoreV) (labels : List Nat) (cond : Option Cond)
    (partitions : List Nat) : List StoreV :=
  table.filter (fun v =>
    (labels.isEmpty || labels.contains v.label) &&
    partitions.contains v.partition &&
    (match cond with
     | some c => c v
     | none => true))

/-- Modelled from the spec: the trailing `limit` stage of `filter_sample_limit!`
and `sample_limit!` ("0 or `None` = unlimited"). -/
def limit_n (l : List StoreV) (limit : Option Nat) : List StoreV :=
  match limit with
  | some n => l.take n
  | none => l

/-- The vertex set produced by `scan_vertex` (read_graph.rs lines 92-150) on a
modelled store: the store is called with the pushed-down condition; when the
row filter exists but was not pushed down it is re-applied in process, then the
(shared, deterministic-per-run) sampling stage and the limit are applied. -/
def scan_vertex_set (table : List StoreV) (labels : List Nat) (partitions : List Nat)
    (row_filter : Option PEvaluator) (row_filter_pushdown : Bool)
    (sampler : List StoreV → List StoreV) (limit : Option Nat) : List StoreV :=
  if (encode_storage_row_filter_condition row_filter row_filter_pushdown).2 then
    limit_n (sampler ((store_get_all_vertices table labels
        (encode_storage_row_filter_condition row_filter row_filter_pushdown).1
        partitions).filter (fun v =>
      match row_filter with
      | some f => f.eval v
      | none => true))) limit
  else
    limit_n (sampler (store_get_all_vertices table labels
      (encode_storage_row_filter_condition row_filter row_filter_pushdown).1
      partitions)) limit

/-- One value or many (`ir_common::utils::OneOrMany`); `One` holds a
single-element array in the source. -/
inductive OneOrMany (α : Type)
  | One (a : α)
  | Many (l : List α)

/-- Primary-key value(s) keyed by property name/id (`PKV`). -/
abbrev PKV := OneOrMany (NameOrId × Object)

/-- The indexed values computed by `index_scan_vertex` (read_graph.rs lines
161-169): each primary-key value encoded as a store property. -/
def store_indexed_values (primary_key : PKV) : List Property :=
  match primary_key with
  | .One pkv => [encode_store_prop_val pkv.2]
  | .Many pkvs => pkvs.map (fun pkv => encode_store_prop_val pkv.2)

/-- The `GraphPartitionManager` surface the adapter consumes (external to
src/): vertex→partition routing and global primary-key resolution. -/
structure GraphPartitionManager where
  get_partition_id : Nat → Nat
  get_vertex_id_by_primary_keys : Nat → List Property → Option Nat

/-- Shallow embedding of `index_scan_vertex` (read_graph.rs lines 152-188).
`get_vertex` models `self.get_vertex(&[vid], params)?.next()` (a store
property fetch, external to src/). -/
def index_scan_vertex (pm : GraphPartitionManager) (get_vertex : Nat → Option StoreV)
    (server_partitions : List Nat) (workers_num worker_idx : Nat)
    (label_id : Nat) (primary_key : PKV) : Option StoreV :=
  let vals := store_indexed_values primary_key
  match pm.get_vertex_id_by_primary_keys label_id vals with
  | some vid =>
    let partition_id := pm.get_partition_id vid
    let worker_partitions := assign_worker_partitions server_partitions workers_num worker_idx
    if partition_id ∈ worker_partitions then get_vertex vid else none
  | none => none

/-! ## Snapshot selection (read_graph.rs lines 41-43, 491-500) -/

/-- The extra-parameter key carrying the snapshot id. -/
def SNAPSHOT_ID : String := "SID"

/-- Largest value of `SnapshotId` (`i64::MAX`). -/
def SNAPSHOT_ID_MAX : ℤ := 2 ^ 63 - 1

/-- The fallback snapshot id (`SnapshotId::MAX - 1`, "latest"). -/
def DEFAULT_SNAPSHOT_ID : ℤ := SNAPSHOT_ID_MAX - 1

/-- Decimal digits to a natural number; `none` unless the list is a non-empty
run of ASCII digits. -/
def digits_to_nat : List Char → Option Nat
  | [] => none
  | cs =>
    if cs.all Char.isDigit then
      some (cs.foldl (fun a c => a * 10 + (c.toNat - 48)) 0)
    else none

/-- Rust `str::parse::<i64>`: an optional sign followed by a non-empty digit
run, rejecting values outside the `i64` range. -/
def parse_i64 (s : String) : Option ℤ :=
  match s.toList with
  | [] => none
  | c :: rest =>
    if c = '-' then
      (digits_to_nat rest).bind (fun n =>
        if (n : ℤ) ≤ 2 ^ 63 then some (-(n : ℤ)) else none)
    else if c = '+' then
      (digits_to_nat rest).bind (fun n =>
        if (n : ℤ) ≤ SNAPSHOT_ID_MAX then some (n : ℤ) else none)
    else
      (digits_to_nat (c :: rest)).bind (fun n =>
        if (n : ℤ) ≤ SNAPSHOT_ID_MAX then some (n : ℤ) else none)

/-- Modelled from the spec: the runtime `QueryParams.extra` string map and its
accessor `get_extra_param` (the runtime `QueryParams` struct lives outside
src/; only its `extra` map is consumed by the embedded code). -/
structure QueryParams where
  extra : List (String × String)

/-- Modelled from the spec: lookup of an extra engine-specific parameter. -/
def QueryParams.get_extra_param (params : QueryParams) (key : String) : Option String :=
  (params.extra.find? (fun kv => kv.1 == key)).map (fun kv => kv.2)

/-- Shallow embedding of `get_snapshot_id` (read_graph.rs lines 491-500). -/
def get_snapshot_id (params : QueryParams) : ℤ :=
  ((params.get_extra_param SNAPSHOT_ID).map
    (fun s => (parse_i64 s).getD DEFAULT_SNAPSHOT_ID)).getD DEFAULT_SNAPSHOT_ID

/-! ## get_edge (read_graph.rs lines 264-269) -/

/-- Runtime edge; only its identity matters to the embedded claims. -/
structure GsEdge where
  eid : Nat
deriving DecidableEq, Repr

/-- Shallow embedding of `GraphScopeStore::get_edge`: unconditionally a
`QueryStoreError` (the iterator type is modelled as a list). -/
def get_edge (_ids : List Nat) (_params : QueryParams) :
    Except GraphProxyError (List GsEdge) :=
  Except.error (GraphProxyError.QueryStoreError
    "GraphScope storage does not support get_edge for now")

/-! ## Plan installation (worker.rs lines 79-126) -/

/-- Errors of plan installation (`BuildJobError`), restricted to the variants
this path produces; `UserError` stands for the builder-forwarded kinds. -/
inductive BuildJobError
  | InternalError (msg : String)
  | UserError (msg : String)
deriving DecidableEq, Repr

/-- The event-channel resource as `Worker::dataflow` observes it: the logical
channel index and the sender handles (modelled by ids). -/
structure ChannelResource where
  ch_index : Nat
  senders : List Nat
deriving DecidableEq, Repr

/-- Shallow embedding of `Worker::dataflow` (worker.rs lines 79-126) as a
transformer of the worker's task state.  `plan_result` is the outcome of the
user plan closure, `build_result` the outcome of `dfb.build` (both external
collaborators); the emitter construction, self-sender removal and root-output
finalization have no effect on the returned error or the task state. -/
def worker_dataflow (total_workers total_peers : Nat) (ch : ChannelResource)
    (plan_result : Except BuildJobError Unit)
    (build_result : Except BuildJobError DataflowSched)
    (task : WorkerTask) : Except BuildJobError Unit × WorkerTask :=
  if ch.ch_index ≠ 0 then
    (.error (.InternalError "Event channel index must be 0"), task)
  else if 1 < total_workers ∧ ch.senders.length ≠ total_peers + 1 then
    (.error (.InternalError ("Incorrect number of senders, senders size: " ++
      toString ch.senders.length ++ ", total_peers: " ++ toString total_peers ++ ";")), task)
  else
    match plan_result with
    | .error e => (.error e, task)
    | .ok _ =>
      match build_result with
      | .error e => (.error e, task)
      | .ok df => (.ok (), .Dataflow df)

/-! ## Theorems -/

theorem assign_eq_filter (qs : List Nat) (W idx : Nat) :
    assign_worker_partitions qs W idx = qs.filter (fun p => p % W == idx % W) := by
  induction qs with
  | nil => rfl
  | cons p rest ih =>
    by_cases h : p % W = idx % W
    · have hb : (p % W == idx % W) = true := by simp [h]
      simp [assign_worker_partitions, List.filter, h, hb, ih]
    · have hb : (p % W == idx % W) = false := by simp [h]
      simp [assign_worker_partitions, List.filter, h, hb, ih]

theorem mem_assign (qs : List Nat) (W idx p : Nat) :
    p ∈ assign_worker_partitions qs W idx ↔ p ∈ qs ∧ p % W = idx % W := by
  rw [assign_eq_filter]
  simp [List.mem_filter]

theorem assign_disjoint (qs : List Nat) (W i j p : Nat) (hi : i < W) (hj : j < W)
    (hij : i ≠ j) (hpi : p ∈ assign_worker_partitions qs W i)
    (hpj : p ∈ assign_worker_partitions qs W j) : False := by
  rw [mem_assign] at hpi hpj
  have h1 : p % W = i % W := hpi.2
  have h2 : p % W = j % W := hpj.2
  rw [Nat.mod_eq_of_lt hi] at h1
  rw [Nat.mod_eq_of_lt hj] at h2
  exact hij (h1 ▸ h2)

theorem assign_cover (qs : List Nat) (W p : Nat) (hW : 0 < W) (hp : p ∈ qs) :
    ∃ k, k < W ∧ p ∈ assign_worker_partitions qs W k := by
  refine ⟨p % W, Nat.mod_lt _ hW, ?_⟩
  rw [mem_assign]
  exact ⟨hp, (Nat.mod_mod_of_dvd p (dvd_refl W)).symm⟩

theorem worker_execute_terminal (f : Bool) (g : Nat) (h1 : 1 ≤ g) (h2 : g < USIZE_MOD) :
    worker_execute false f (.ok .Finished) g =
      ⟨if g = 1 then .Finished else .NotReady, g - 1, true⟩ := by
  have hU : USIZE_MOD = 18446744073709551616 := by norm_num [USIZE_MOD]
  have hmod : (g + (USIZE_MOD - 1)) % USIZE_MOD = g - 1 := by
    rw [hU] at h2 ⊢
    omega
  unfold worker_execute
  simp only [if_neg (Bool.false_ne_true), hmod]
  by_cases hg1 : g = 1 <;> simp [hg1, hmod]

theorem run_terminal_count_finished (n : Nat) (h1 : 1 ≤ n) (h2 : n < USIZE_MOD) :
    (run_terminal n n).count .Finished = 1 := by
  induction n with
  | zero => omega
  | succ m ih =>
    by_cases hm : m = 0
    · subst hm
      rw [run_terminal, worker_execute_terminal false 1 (by norm_num) h2]
      simp [run_terminal, List.count]
    · have h2' : m < USIZE_MOD := by
        have : (m : Nat) < m + 1 := Nat.lt_succ_self m
        omega
      rw [run_terminal, worker_execute_terminal false (m + 1) (by omega) h2]
      have hne : m + 1 ≠ 1 := by omega
      simp only [if_neg hne]
      rw [List.count_cons]
      have := ih (by omega) h2'
      simp [this]

/-- C1: when the worker's task step returns `Finished` inside `execute()` (not
cancelled), the shared peer guard is decremented, and `execute()` returns
`Finished` iff the guard's prior value was 1 (last live peer), otherwise
`NotReady`; across `n` peers of a job, exactly one of the `n` terminal
`execute()` calls (threading the shared guard down from `n`) returns
`Finished`. -/
theorem worker_peer_guard_last_finishes (g n : Nat) (f : Bool)
    (hg1 : 1 ≤ g) (hg2 : g < USIZE_MOD) (hn1 : 1 ≤ n) (hn2 : n < USIZE_MOD) :
    (worker_execute false f (.ok .Finished) g).guard = g - 1 ∧
    ((worker_execute false f (.ok .Finished) g).state = .Finished ↔ g = 1) ∧
    ((worker_execute false f (.ok .Finished) g).state = .NotReady ↔ g ≠ 1) ∧
    (run_terminal n n).count .Finished = 1 := by
  rw [worker_execute_terminal f g hg1 hg2]
  refine ⟨rfl, ?_, ?_, run_terminal_count_finished n hn1 hn2⟩
  · by_cases h : g = 1 <;> simp [h]
  · by_cases h : g = 1 <;> simp [h]

/-- Witness for C1 at guard value 2 and a 3-peer job. -/
theorem worker_peer_guard_last_finishes_witness :
    (worker_execute false false (.ok .Finished) 2).guard = 2 - 1 ∧
    ((worker_execute false false (.ok .Finished) 2).state = .Finished ↔ 2 = 1) ∧
    ((worker_execute false false (.ok .Finished) 2).state = .NotReady ↔ 2 ≠ 1) ∧
    (run_terminal 3 3).count .Finished = 1 :=
  worker_peer_guard_last_finishes 2 3 false (by norm_num) (by norm_num [USIZE_MOD])
    (by norm_num) (by norm_num [USIZE_MOD])

/-- C4: from the `Dataflow` state, `execute()` first calls `sched.step(df)`;
it returns `Finished` after `sched.close()` when `df.check_finish()` holds,
`NotReady` when `df.is_idle()` holds, `Ready` otherwise; from `Empty` it
returns `Finished` without invoking the scheduler; errors of `step`, `close`
and `is_idle` propagate as `JobExecError`. -/
theorem workerTask_execute_spec (o : DataflowSched) (e : JobExecError) :
    (WorkerTask.execute .Empty = (.ok .Finished, [])) ∧
    ((WorkerTask.execute (.Dataflow o)).2.head? = some .step) ∧
    (o.step_result = .ok () → o.check_finish = true → o.close_result = .ok () →
      WorkerTask.execute (.Dataflow o) = (.ok .Finished, [.step, .close])) ∧
    (o.step_result = .ok () → o.check_finish = false → o.is_idle_result = .ok true →
      WorkerTask.execute (.Dataflow o) = (.ok .NotReady, [.step, .is_idle])) ∧
    (o.step_result = .ok () → o.check_finish = false → o.is_idle_result = .ok false →
      WorkerTask.execute (.Dataflow o) = (.ok .Ready, [.step, .is_idle])) ∧
    (o.step_result = .error e → (WorkerTask.execute (.Dataflow o)).1 = .error e) ∧
    (o.step_result = .ok () → o.check_finish = true → o.close_result = .error e →
      (WorkerTask.execute (.Dataflow o)).1 = .error e) ∧
    (o.step_result = .ok () → o.check_finish = false → o.is_idle_result = .error e →
      (WorkerTask.execute (.Dataflow o)).1 = .error e) := by
  refine ⟨rfl, ?_, ?_, ?_, ?_, ?_, ?_, ?_⟩
  · cases hs : o.step_result with
    | error e' => simp [WorkerTask.execute, hs]
    | ok u =>
      cases hc : o.check_finish
      · cases hi : o.is_idle_result with
        | error e' => simp [WorkerTask.execute, hs, hc, hi]
        | ok b => cases b <;> simp [WorkerTask.execute, hs, hc, hi]
      · cases hcl : o.close_result with
        | error e' => simp [WorkerTask.execute, hs, hc, hcl]
        | ok u' => simp [WorkerTask.execute, hs, hc, hcl]
  · intro h1 h2 h3
    simp [WorkerTask.execute, h1, h2, h3]
  · intro h1 h2 h3
    simp [WorkerTask.execute, h1, h2, h3]
  · intro h1 h2 h3
    simp [WorkerTask.execute, h1, h2, h3]
  · intro h1
    simp [WorkerTask.execute, h1]
  · intro h1 h2 h3
    simp [WorkerTask.execute, h1, h2, h3]
  · intro h1 h2 h3
    simp [WorkerTask.execute, h1, h2, h3]

/-- Witness for C4: the finish, idle and step-error transitions at concrete
oracles. -/
theorem workerTask_execute_spec_witness :
    (WorkerTask.execute (.Dataflow ⟨.ok (), true, .ok (), .ok true⟩) =
      (.ok .Finished, [.step, .close])) ∧
    (WorkerTask.execute (.Dataflow ⟨.ok (), false, .ok (), .ok true⟩) =
      (.ok .NotReady, [.step, .is_idle])) ∧
    (WorkerTask.execute (.Dataflow ⟨.ok (), false, .ok (), .ok false⟩) =
      (.ok .Ready, [.step, .is_idle])) ∧
    ((WorkerTask.execute (.Dataflow ⟨.error ⟨"boom"⟩, true, .ok (), .ok true⟩)).1 =
      .error ⟨"boom"⟩) :=
  ⟨(workerTask_execute_spec ⟨.ok (), true, .ok (), .ok true⟩ ⟨"boom"⟩).2.2.1 rfl rfl rfl,
   (workerTask_execute_spec ⟨.ok (), false, .ok (), .ok true⟩ ⟨"boom"⟩).2.2.2.1 rfl rfl rfl,
   (workerTask_execute_spec ⟨.ok (), false, .ok (), .ok false⟩ ⟨"boom"⟩).2.2.2.2.1 rfl rfl rfl,
   (workerTask_execute_spec ⟨.error ⟨"boom"⟩, true, .ok (), .ok true⟩ ⟨"boom"⟩).2.2.2.2.2.1 rfl⟩

/-- C2: `assign_worker_partitions` returns exactly the partitions congruent to
the worker index modulo the local worker count, in input order; the
assignments of two distinct worker indices below `W` are disjoint; every
partition is assigned to some worker index below `W`; and every assigned
partition comes from the input list. -/
theorem assign_worker_partitions_spec (qs : List Nat) (W i j : Nat)
    (hi : i < W) (hj : j < W) (hij : i ≠ j) :
    (assign_worker_partitions qs W i = qs.filter (fun p => p % W == i % W)) ∧
    (∀ p, p ∈ assign_worker_partitions qs W i →
      p ∈ assign_worker_partitions qs W j → False) ∧
    (∀ p, p ∈ qs → ∃ k, k < W ∧ p ∈ assign_worker_partitions qs W k) ∧
    (∀ p, p ∈ assign_worker_partitions qs W i → p ∈ qs) := by
  refine ⟨assign_eq_filter qs W i, ?_, ?_, ?_⟩
  · intro p hpi hpj
    exact assign_disjoint qs W i j p hi hj hij hpi hpj
  · intro p hp
    exact assign_cover qs W p (Nat.pos_of_ne_zero (by omega)) hp
  · intro p hp
    exact ((mem_assign qs W i p).mp hp).1

/-- Witness for C2 on partitions `[0,1,2,3]` with two workers. -/
theorem assign_worker_partitions_spec_witness :
    ((assign_worker_partitions [0, 1, 2, 3] 2 0 =
       [0, 1, 2, 3].filter (fun p => p % 2 == 0 % 2)) ∧
     (∀ p, p ∈ assign_worker_partitions [0, 1, 2, 3] 2 0 →
       p ∈ assign_worker_partitions [0, 1, 2, 3] 2 1 → False) ∧
     (∀ p, p ∈ [0, 1, 2, 3] → ∃ k, k < 2 ∧ p ∈ assign_worker_partitions [0, 1, 2, 3] 2 k) ∧
     (∀ p, p ∈ assign_worker_partitions [0, 1, 2, 3] 2 0 → p ∈ [0, 1, 2, 3])) :=
  assign_worker_partitions_spec [0, 1, 2, 3] 2 0 1 (by decide) (by decide) (by decide)

/-- C8: when `total_workers > 1` and the event channel yields a number of
senders different from `total_peers + 1`, `Worker::dataflow` fails with
`BuildJobError::InternalError` reporting the sender count, and the worker's
task state remains `Empty`. -/
theorem worker_dataflow_bad_senders (total_workers total_peers : Nat)
    (ch : ChannelResource) (plan_result : Except BuildJobError Unit)
    (build_result : Except BuildJobError DataflowSched)
    (hch : ch.ch_index = 0) (hw : 1 < total_workers)
    (hs : ch.senders.length ≠ total_peers + 1) :
    worker_dataflow total_workers total_peers ch plan_result build_result .Empty =
      (.error (.InternalError ("Incorrect number of senders, senders size: " ++
        toString ch.senders.length ++ ", total_peers: " ++ toString total_peers ++ ";")),
       .Empty) := by
  unfold worker_dataflow
  rw [if_neg (by simp [hch]), if_pos ⟨hw, hs⟩]

/-- Witness for C8: two workers, three peers expected, but only two senders. -/
theorem worker_dataflow_bad_senders_witness :
    worker_dataflow 2 2 ⟨0, [10, 11]⟩ (.ok ())
      (.ok ⟨.ok (), true, .ok (), .ok true⟩) .Empty =
      (.error (.InternalError ("Incorrect number of senders, senders size: " ++
        toString ([10, 11] : List Nat).length ++ ", total_peers: " ++ toString 2 ++ ";")),
       .Empty) :=
  worker_dataflow_bad_senders 2 2 ⟨0, [10, 11]⟩ (.ok ())
    (.ok ⟨.ok (), true, .ok (), .ok true⟩) rfl (by decide) (by decide)

/-- A row filter whose condition conversion succeeds while it references
property 5 (concrete instance used to separate the claim from the code). -/
def pe_cx : PEvaluator := ⟨fun _ => true, .ok (fun _ => true), some [5]⟩

/-- C3 counterexample: with column push-down enabled, a filter referencing
property 5 that is successfully pushed down (`row_filter_pushdown = true`,
conversion succeeds) and requested columns `Some([7])`, the code requests
exactly `[7]` from the store — not the union `dedup({5} ∪ {7})`, which would
contain 5. -/
theorem scan_vertex_prop_ids_counterexample :
    scan_vertex_prop_ids true (some pe_cx) true (some [NameOrId.Id 7]) = .ok (some [7]) ∧
    pe_cx.extract_prop_ids = some [5] ∧ ¬ ((5 : Nat) ∈ ([7] : List Nat)) := by
  refine ⟨?_, rfl, by decide⟩
  rfl

/-- C3 amended: with column push-down enabled, when the row filter exists but
is NOT pushed down, the requested props are the de-duplicated union of the
filter's props and the requested columns (`None` read as the empty set and
`Some([])` excluded); when the row filter is successfully pushed down, exactly
the requested columns are forwarded; `Some([])` or disabled column push-down
request all properties. -/
theorem scan_vertex_prop_ids_union (f : PEvaluator) (columns : Option (List NameOrId))
    (cache : Option (List Nat)) (rowpd : Bool)
    (henc : encode_storage_prop_keys columns = .ok cache) :
    ((encode_storage_row_filter_condition (some f) rowpd).2 = true → cache ≠ some [] →
      ∃ cols, scan_vertex_prop_ids true (some f) rowpd columns = .ok cols ∧
        (cols.getD []).Nodup ∧
        (∀ x, x ∈ cols.getD [] ↔
          (x ∈ f.extract_prop_ids.getD [] ∨ x ∈ cache.getD [])) ∧
        (cols = none ↔ (f.extract_prop_ids = none ∧ cache = none))) ∧
    ((encode_storage_row_filter_condition (some f) rowpd).2 = false →
      scan_vertex_prop_ids true (some f) rowpd columns = .ok cache) ∧
    (cache = some [] → scan_vertex_prop_ids true (some f) rowpd columns = .ok (some [])) ∧
    (scan_vertex_prop_ids false (some f) rowpd columns = .ok get_all_storage_props) := by
  refine ⟨?_, ?_, ?_, ?_⟩
  · intro hflag hcache
    refine ⟨(zip_option_vecs f.extract_prop_ids cache).map List.dedup, ?_, ?_, ?_, ?_⟩
    · simp only [scan_vertex_prop_ids, henc, hflag, if_true]
      unfold extract_needed_columns
      rw [if_neg hcache]
    · cases hfp : f.extract_prop_ids <;> cases hca : cache <;>
        simp [zip_option_vecs, List.nodup_dedup]
    · intro x
      cases hfp : f.extract_prop_ids <;> cases hca : cache <;>
        simp [zip_option_vecs, List.mem_dedup, List.mem_append]
    · cases hfp : f.extract_prop_ids <;> cases hca : cache <;>
        simp [zip_option_vecs]
  · intro hflag
    simp only [scan_vertex_prop_ids, henc, hflag, if_true, if_false]
    rfl
  · intro hcache
    subst hcache
    cases hflag : (encode_storage_row_filter_condition (some f) rowpd).2
    · simp only [scan_vertex_prop_ids, henc, hflag, if_true, if_false]
      rfl
    · simp only [scan_vertex_prop_ids, henc, hflag, if_true]
      unfold extract_needed_columns
      rw [if_pos rfl]
  · rfl

/-- A row filter referencing properties 3 and 5 whose condition conversion
fails (concrete instance for the witness). -/
def pe_w3 : PEvaluator := ⟨fun _ => true, .error (), some [3, 5]⟩

/-- Witness for the amended C3 at a filter over props `{3,5}` that fails to
convert, with requested columns `Some([5,7])`. -/
theorem scan_vertex_prop_ids_union_witness :
    (((encode_storage_row_filter_condition (some pe_w3) true).2 = true →
      (some [5, 7] : Option (List Nat)) ≠ some [] →
      ∃ cols, scan_vertex_prop_ids true (some pe_w3) true
          (some [NameOrId.Id 5, NameOrId.Id 7]) = .ok cols ∧
        (cols.getD []).Nodup ∧
        (∀ x, x ∈ cols.getD [] ↔
          (x ∈ pe_w3.extract_prop_ids.getD [] ∨ x ∈ (some [5, 7] : Option (List Nat)).getD [])) ∧
        (cols = none ↔ (pe_w3.extract_prop_ids = none ∧ (some [5, 7] : Option (List Nat)) = none))) ∧
    ((encode_storage_row_filter_condition (some pe_w3) true).2 = false →
      scan_vertex_prop_ids true (some pe_w3) true
        (some [NameOrId.Id 5, NameOrId.Id 7]) = .ok (some [5, 7])) ∧
    ((some [5, 7] : Option (List Nat)) = some [] →
      scan_vertex_prop_ids true (some pe_w3) true
        (some [NameOrId.Id 5, NameOrId.Id 7]) = .ok (some [])) ∧
    (scan_vertex_prop_ids false (some pe_w3) true
      (some [NameOrId.Id 5, NameOrId.Id 7]) = .ok get_all_storage_props)) :=
  scan_vertex_prop_ids_union pe_w3 (some [NameOrId.Id 5, NameOrId.Id 7])
    (some [5, 7]) true rfl

theorem filter_and_split {α : Type} (l : List α) (base q q' : α → Bool)
    (h : ∀ a, q a = q' a) :
    l.filter (fun a => base a && q a) =
      (l.filter (fun a => base a && true)).filter q' := by
  induction l with
  | nil => rfl
  | cons x t ih =>
    have hx : q' x = q x := (h x).symm
    cases hb : base x <;> cases hq : q x <;>
      simp [List.filter, hb, hq, hx, ih]

theorem store_cond_as_post_filter (table : List StoreV) (labels partitions : List Nat)
    (c : Cond) (ev : StoreV → Bool) (hce : ∀ v, c v = ev v) :
    store_get_all_vertices table labels (some c) partitions =
      (store_get_all_vertices table labels none partitions).filter ev :=
  filter_and_split table
    (fun v => (labels.isEmpty || labels.contains v.label) && partitions.contains v.partition)
    c ev hce

/-- C5: the vertex set produced by `scan_vertex` is the same whether
`row_filter_pushdown` is enabled or not, provided the store condition obtained
from a successful conversion evaluates as the in-process filter; and a failed
conversion degrades gracefully: no condition is pushed and the flag to
re-apply the filter in process is set. -/
theorem scan_vertex_pushdown_equiv (table : List StoreV) (labels partitions : List Nat)
    (row_filter : Option PEvaluator) (sampler : List StoreV → List StoreV)
    (limit : Option Nat)
    (hfaith : ∀ f c, row_filter = some f → f.to_condition = .ok c → ∀ v, c v = f.eval v) :
    (scan_vertex_set table labels partitions row_filter true sampler limit =
      scan_vertex_set table labels partitions row_filter false sampler limit) ∧
    (∀ f, row_filter = some f → f.to_condition = .error () →
      encode_storage_row_filter_condition row_filter true = (none, true)) := by
  constructor
  · cases hrf : row_filter with
    | none => rfl
    | some f =>
      cases hcv : f.to_condition with
      | error e =>
        cases e
        simp [scan_vertex_set, encode_storage_row_filter_condition, hcv]
      | ok c =>
        have hce : ∀ v, c v = f.eval v := hfaith f c hrf hcv
        have e1 : encode_storage_row_filter_condition (some f) true = (some c, false) := by
          simp [encode_storage_row_filter_condition, hcv]
        have e2 : encode_storage_row_filter_condition (some f) false = (none, true) := by
          simp [encode_storage_row_filter_condition]
        have hst := store_cond_as_post_filter table labels partitions c
          (fun v => f.eval v) hce
        unfold scan_vertex_set
        rw [e1, e2, hst]
        simp
  · intro f hf he
    subst hf
    simp [encode_storage_row_filter_condition, he]

/-- A row filter (odd vertex ids) whose condition conversion fails (concrete
instance for the C5 witness, exercising the graceful-degradation path). -/
def pe_w5 : PEvaluator := ⟨fun v => v.vid % 2 == 1, .error (), some []⟩

/-- Witness for C5 on a three-vertex store with a non-convertible filter. -/
theorem scan_vertex_pushdown_equiv_witness :
    (scan_vertex_set [⟨1, 0, 0⟩, ⟨2, 0, 1⟩, ⟨3, 1, 0⟩] [] [0] (some pe_w5) true id none =
      scan_vertex_set [⟨1, 0, 0⟩, ⟨2, 0, 1⟩, ⟨3, 1, 0⟩] [] [0] (some pe_w5) false id none) ∧
    (∀ f, (some pe_w5 : Option PEvaluator) = some f → f.to_condition = .error () →
      encode_storage_row_filter_condition (some pe_w5) true = (none, true)) :=
  scan_vertex_pushdown_equiv [⟨1, 0, 0⟩, ⟨2, 0, 1⟩, ⟨3, 1, 0⟩] [] [0] (some pe_w5) id none
    (by
      intro f c hf hc
      cases hf
      simp [pe_w5] at hc)

/-- C6: `index_scan_vertex` returns `Some` only when the resolved global id's
partition is among this worker's assigned partitions; it returns `None` when
the primary key does not resolve or the partition is not owned; and two
distinct worker indices below `W` cannot both return `Some`. -/
theorem index_scan_vertex_spec (pm : GraphPartitionManager) (get_vertex : Nat → Option StoreV)
    (sp : List Nat) (W i j label : Nat) (pk : PKV)
    (hi : i < W) (hj : j < W) (hij : i ≠ j) :
    (∀ v, index_scan_vertex pm get_vertex sp W i label pk = some v →
      ∃ vid, pm.get_vertex_id_by_primary_keys label (store_indexed_values pk) = some vid ∧
        pm.get_partition_id vid ∈ assign_worker_partitions sp W i ∧
        get_vertex vid = some v) ∧
    (pm.get_vertex_id_by_primary_keys label (store_indexed_values pk) = none →
      index_scan_vertex pm get_vertex sp W i label pk = none) ∧
    (∀ vid, pm.get_vertex_id_by_primary_keys label (store_indexed_values pk) = some vid →
      pm.get_partition_id vid ∉ assign_worker_partitions sp W i →
      index_scan_vertex pm get_vertex sp W i label pk = none) ∧
    ¬((index_scan_vertex pm get_vertex sp W i label pk).isSome ∧
      (index_scan_vertex pm get_vertex sp W j label pk).isSome) := by
  cases hvid : pm.get_vertex_id_by_primary_keys label (store_indexed_values pk) with
  | none =>
    refine ⟨?_, ?_, ?_, ?_⟩
    · intro v hv
      simp [index_scan_vertex, hvid] at hv
    · intro _
      simp [index_scan_vertex, hvid]
    · intro vid h _
      exact absurd h (by simp)
    · rintro ⟨h1, _⟩
      simp [index_scan_vertex, hvid] at h1
  | some vid =>
    have own : ∀ k, (index_scan_vertex pm get_vertex sp W k label pk).isSome →
        pm.get_partition_id vid ∈ assign_worker_partitions sp W k := by
      intro k hk
      simp only [index_scan_vertex, hvid] at hk
      by_cases hin : pm.get_partition_id vid ∈ assign_worker_partitions sp W k
      · exact hin
      · rw [if_neg hin] at hk
        simp at hk
    refine ⟨?_, ?_, ?_, ?_⟩
    · intro v hv
      have hv' := hv
      simp only [index_scan_vertex, hvid] at hv'
      by_cases hin : pm.get_partition_id vid ∈ assign_worker_partitions sp W i
      · rw [if_pos hin] at hv'
        exact ⟨vid, rfl, hin, hv'⟩
      · rw [if_neg hin] at hv'
        exact absurd hv' (by simp)
    · intro h
      exact absurd h (by simp)
    · intro vid' h hn
      have hv : vid' = vid := (Option.some.inj h).symm
      subst hv
      simp only [index_scan_vertex, hvid]
      rw [if_neg hn]
    · rintro ⟨h1, h2⟩
      exact assign_disjoint sp W i j (pm.get_partition_id vid) hi hj hij (own i h1) (own j h2)

/-- Witness for C6: two workers over partitions `[0,1]`, a key resolving to a
vertex in partition 0. -/
theorem index_scan_vertex_spec_witness :
    ((∀ v, index_scan_vertex ⟨fun _ => 0, fun _ _ => some 42⟩ (fun n => some ⟨n, 0, 0⟩)
        [0, 1] 2 0 9 (.One (NameOrId.Id 0, Object.None)) = some v →
      ∃ vid, (⟨fun _ => 0, fun _ _ => some 42⟩ :
          GraphPartitionManager).get_vertex_id_by_primary_keys 9
          (store_indexed_values (.One (NameOrId.Id 0, Object.None))) = some vid ∧
        (⟨fun _ => 0, fun _ _ => some 42⟩ : GraphPartitionManager).get_partition_id vid ∈
          assign_worker_partitions [0, 1] 2 0 ∧
        (fun n => some (⟨n, 0, 0⟩ : StoreV)) vid = some v) ∧
    ((⟨fun _ => 0, fun _ _ => some 42⟩ :
        GraphPartitionManager).get_vertex_id_by_primary_keys 9
        (store_indexed_values (.One (NameOrId.Id 0, Object.None))) = none →
      index_scan_vertex ⟨fun _ => 0, fun _ _ => some 42⟩ (fun n => some ⟨n, 0, 0⟩)
        [0, 1] 2 0 9 (.One (NameOrId.Id 0, Object.None)) = none) ∧
    (∀ vid, (⟨fun _ => 0, fun _ _ => some 42⟩ :
        GraphPartitionManager).get_vertex_id_by_primary_keys 9
        (store_indexed_values (.One (NameOrId.Id 0, Object.None))) = some vid →
      (⟨fun _ => 0, fun _ _ => some 42⟩ : GraphPartitionManager).get_partition_id vid ∉
        assign_worker_partitions [0, 1] 2 0 →
      index_scan_vertex ⟨fun _ => 0, fun _ _ => some 42⟩ (fun n => some ⟨n, 0, 0⟩)
        [0, 1] 2 0 9 (.One (NameOrId.Id 0, Object.None)) = none) ∧
    ¬((index_scan_vertex ⟨fun _ => 0, fun _ _ => some 42⟩ (fun n => some ⟨n, 0, 0⟩)
        [0, 1] 2 0 9 (.One (NameOrId.Id 0, Object.None))).isSome ∧
      (index_scan_vertex ⟨fun _ => 0, fun _ _ => some 42⟩ (fun n => some ⟨n, 0, 0⟩)
        [0, 1] 2 1 9 (.One (NameOrId.Id 0, Object.None))).isSome)) :=
  index_scan_vertex_spec ⟨fun _ => 0, fun _ _ => some 42⟩ (fun n => some ⟨n, 0, 0⟩)
    [0, 1] 2 0 1 9 (.One (NameOrId.Id 0, Object.None)) (by decide) (by decide) (by decide)

/-- C7 counterexample: the u32 value `2^31` is not widened — the code casts it
to the same-width signed `Int` variant, wrapping to `-2^31`, so not every u32
value is representable in the chosen signed variant. -/
theorem encode_store_prop_val_counterexample :
    encode_store_prop_val (.Primitive (.UInteger (2 ^ 31))) = .Int (-(2 ^ 31)) ∧
    (-(2 ^ 31) : ℤ) ≠ ((2 ^ 31 : Nat) : ℤ) := by
  constructor
  · rfl
  · decide

/-- C7 amended: primitives map to store variants by family (byte→Char,
i32→Int, i64→Long, f32→Float, f64→Double, string→String, None→Null), with
each unsigned width reinterpreted into the SAME-width signed store variant by
a two's-complement wrapping cast (u32→Int, u64→Long, u128 truncated to Long);
values below the signed maximum are preserved. -/
theorem encode_store_prop_val_primitives (b i l : ℤ) (u32v u64v u128v : Nat)
    (f : F32) (d : F64) (s : String)
    (hu : u32v < 2 ^ 31) (hv : u64v < 2 ^ 63) :
    encode_store_prop_val (.Primitive (.Byte b)) = .Char (i8_as_u8 b) ∧
    encode_store_prop_val (.Primitive (.Integer i)) = .Int i ∧
    encode_store_prop_val (.Primitive (.UInteger u32v)) = .Int (u32_as_i32 u32v) ∧
    u32_as_i32 u32v = (u32v : ℤ) ∧
    encode_store_prop_val (.Primitive (.Long l)) = .Long l ∧
    encode_store_prop_val (.Primitive (.ULong u64v)) = .Long (u64_as_i64 u64v) ∧
    u64_as_i64 u64v = (u64v : ℤ) ∧
    encode_store_prop_val (.Primitive (.ULLong u128v)) = .Long (u128_as_i64 u128v) ∧
    encode_store_prop_val (.Primitive (.Float f)) = .Float f ∧
    encode_store_prop_val (.Primitive (.Double d)) = .Double d ∧
    encode_store_prop_val (.String s) = .String s ∧
    encode_store_prop_val .None = .Null := by
  have hu32 : u32v % 2 ^ 32 = u32v := Nat.mod_eq_of_lt (by omega)
  have hu64 : u64v % 2 ^ 64 = u64v := Nat.mod_eq_of_lt (by omega)
  refine ⟨rfl, rfl, rfl, ?_, rfl, rfl, ?_, rfl, rfl, rfl, rfl, rfl⟩
  · unfold u32_as_i32
    rw [hu32, if_pos hu]
    omega
  · unfold u64_as_i64
    rw [hu64, if_pos hv]
    omega

/-- Witness for the amended C7 at concrete primitive values. -/
theorem encode_store_prop_val_primitives_witness :
    encode_store_prop_val (.Primitive (.Byte (-1))) = .Char (i8_as_u8 (-1)) ∧
    encode_store_prop_val (.Primitive (.Integer 7)) = .Int 7 ∧
    encode_store_prop_val (.Primitive (.UInteger 12)) = .Int (u32_as_i32 12) ∧
    u32_as_i32 12 = ((12 : Nat) : ℤ) ∧
    encode_store_prop_val (.Primitive (.Long (-9))) = .Long (-9) ∧
    encode_store_prop_val (.Primitive (.ULong 13)) = .Long (u64_as_i64 13) ∧
    u64_as_i64 13 = ((13 : Nat) : ℤ) ∧
    encode_store_prop_val (.Primitive (.ULLong 99)) = .Long (u128_as_i64 99) ∧
    encode_store_prop_val (.Primitive (.Float ⟨5⟩)) = .Float ⟨5⟩ ∧
    encode_store_prop_val (.Primitive (.Double ⟨6⟩)) = .Double ⟨6⟩ ∧
    encode_store_prop_val (.String "abc") = .String "abc" ∧
    encode_store_prop_val .None = .Null :=
  encode_store_prop_val_primitives (-1) 7 (-9) 12 13 99 ⟨5⟩ ⟨6⟩ "abc"
    (by decide) (by decide)

/-- C9: the snapshot id used by the adapter equals the integer parsed from
`params.extra["SID"]`; when the key is absent or the value fails to parse as
an integer, it falls back to `SnapshotId::MAX - 1`. -/
theorem get_snapshot_id_spec (params : QueryParams) :
    (get_snapshot_id params =
      match params.get_extra_param SNAPSHOT_ID with
      | none => DEFAULT_SNAPSHOT_ID
      | some s =>
        match parse_i64 s with
        | some v => v
        | none => DEFAULT_SNAPSHOT_ID) ∧
    DEFAULT_SNAPSHOT_ID = SNAPSHOT_ID_MAX - 1 := by
  refine ⟨?_, rfl⟩
  cases hl : params.get_extra_param SNAPSHOT_ID with
  | none => simp [get_snapshot_id, hl]
  | some s =>
    cases hp : parse_i64 s with
    | none => simp [get_snapshot_id, hl, hp]
    | some v => simp [get_snapshot_id, hl, hp]

/-- C10: `get_edge` always fails with a `QueryStoreError` saying the storage
does not support `get_edge`; it never returns an edge list, even an empty one. -/
theorem get_edge_always_error (ids : List Nat) (params : QueryParams) :
    get_edge ids params = .error (GraphProxyError.QueryStoreError
      "GraphScope storage does not support get_edge for now") ∧
    ∀ es : List GsEdge, get_edge ids params ≠ .ok es := by
  refine ⟨rfl, ?_⟩
  intro es h
  exact absurd h (by simp [get_edge])
